import Mathlib

/-!
Verification development for the `propel` deployment orchestrator.

The Rust sources are embedded shallowly: pure functions become Lean
functions, external command execution is modelled by explicit
response oracles, and the deploy pipeline becomes explicit
state passing in the `Except` monad.
-/

namespace Propel

/- ### Line splitting helper

`splitOnChar c s` splits a character list at every occurrence of `c`.
It is used to talk about the individual instruction lines of a rendered
Dockerfile string. -/

def splitOnChar (c : Char) : List Char → List (List Char)
  | [] => [[]]
  | x :: xs =>
    if x = c then [] :: splitOnChar c xs
    else
      match splitOnChar c xs with
      | [] => [[x]]
      | l :: ls => (x :: l) :: ls

theorem splitOnChar_ne_nil (c : Char) (s : List Char) : splitOnChar c s ≠ [] := by
  induction s with
  | nil => simp [splitOnChar]
  | cons x xs ih =>
    simp only [splitOnChar]
    split
    · simp
    · cases h : splitOnChar c xs with
      | nil => simp
      | cons l ls => simp

/-- Prepending characters distinct from the separator extends the first field. -/
theorem splitOnChar_append (c : Char) (xs ys : List Char) (h : c ∉ xs) :
    splitOnChar c (xs ++ ys) =
      match splitOnChar c ys with
      | [] => [xs]
      | l :: ls => (xs ++ l) :: ls := by
  induction xs with
  | nil =>
    simp only [List.nil_append]
    cases h' : splitOnChar c ys with
    | nil => exact absurd h' (splitOnChar_ne_nil c ys)
    | cons l ls => simp
  | cons x xs ih =>
    have hx : x ≠ c := fun hc => h (hc ▸ List.mem_cons_self x xs)
    have hxs : c ∉ xs := fun hm => h (List.mem_cons_of_mem x hm)
    simp only [List.cons_append, splitOnChar, if_neg hx, List.append_eq]
    rw [ih hxs]
    cases h' : splitOnChar c ys with
    | nil => exact absurd h' (splitOnChar_ne_nil c ys)
    | cons l ls => simp

/-- Peeling one complete line (ending in the separator) off the front. -/
theorem splitOnChar_line (c : Char) (xs ys : List Char) (h : c ∉ xs) :
    splitOnChar c (xs ++ c :: ys) = xs :: splitOnChar c ys := by
  rw [show xs ++ c :: ys = xs ++ [c] ++ ys by simp, List.append_assoc,
    splitOnChar_append c xs ([c] ++ ys) h]
  have : splitOnChar c ([c] ++ ys) = [] :: splitOnChar c ys := by
    simp [splitOnChar]
  rw [this]
  simp

theorem splitOnChar_no_sep (c : Char) (xs : List Char) (h : c ∉ xs) :
    splitOnChar c xs = [xs] := by
  have := splitOnChar_append c xs [] h
  simpa [splitOnChar] using this

/-- The lines of a rendered string: split its characters at newlines. -/
def linesOf (s : String) : List (List Char) :=
  splitOnChar '\n' s.data

/-- Splitting a block built as a join of newline-terminated lines. -/
theorem splitOnChar_join_lines (f : α → List Char) (l : List α) (rest : List Char)
    (hf : ∀ a ∈ l, '\n' ∉ f a) :
    splitOnChar '\n' ((l.map (fun a => f a ++ ['\n'])).flatten ++ rest) =
      l.map f ++ splitOnChar '\n' rest := by
  induction l with
  | nil => simp
  | cons a l ih =>
    have ha : '\n' ∉ f a := hf a (List.mem_cons_self a l)
    have hl : ∀ b ∈ l, '\n' ∉ f b := fun b hb => hf b (List.mem_cons_of_mem a hb)
    simp only [List.map_cons, List.flatten_cons, List.append_assoc, List.singleton_append,
      List.cons_append, List.nil_append]
    rw [splitOnChar_line '\n' (f a)
        ((List.map (fun b => f b ++ ['\n']) l).flatten ++ rest) ha, ih hl]

/- ### Configuration data model

From `src/crates/propel-core/src/config.rs`.  The Rust `HashMap` for
`[build.env]` has no deterministic iteration order, so it is embedded as an
association list whose order is arbitrary (claims about the map quantify over
permutations with duplicate-free keys). -/

/-- `ProjectConfig` from config.rs. -/
structure ProjectConfig where
  name : Option String
  region : String
  gcp_project_id : Option String
deriving Repr, DecidableEq

/-- `BuildConfig` from config.rs; the Rust field `include` keeps its name. -/
structure BuildConfig where
  base_image : String
  runtime_image : String
  extra_packages : List String
  cargo_chef_version : String
  «include» : Option (List String)
  env : List (String × String)
deriving Repr, DecidableEq

/-- `CloudRunConfig` from config.rs. -/
structure CloudRunConfig where
  memory : String
  cpu : Nat
  min_instances : Nat
  max_instances : Nat
  concurrency : Nat
  port : Nat
deriving Repr, DecidableEq

/-- `PropelConfig` from config.rs. -/
structure PropelConfig where
  project : ProjectConfig
  build : BuildConfig
  cloud_run : CloudRunConfig
deriving Repr, DecidableEq

def default_region : String := "us-central1"

def default_builder_image : String := "rust:1.84-bookworm"

def default_runtime_image : String := "gcr.io/distroless/cc-debian12"

def default_cargo_chef_version : String := "0.1.68"

def default_memory : String := "512Mi"

def default_cpu : Nat := 1

def default_max_instances : Nat := 10

def default_concurrency : Nat := 80

def default_port : Nat := 8080

/-- `ProjectConfig::default` from config.rs. -/
def ProjectConfig.default : ProjectConfig :=
  { name := none, region := default_region, gcp_project_id := none }

/-- `BuildConfig::default` from config.rs. -/
def BuildConfig.default : BuildConfig :=
  { base_image := default_builder_image
    runtime_image := default_runtime_image
    extra_packages := []
    cargo_chef_version := default_cargo_chef_version
    «include» := none
    env := [] }

/-- `CloudRunConfig::default` from config.rs. -/
def CloudRunConfig.default : CloudRunConfig :=
  { memory := default_memory
    cpu := default_cpu
    min_instances := 0
    max_instances := default_max_instances
    concurrency := default_concurrency
    port := default_port }

/-- `PropelConfig::default` (derived `Default`: every section defaulted). -/
def PropelConfig.default : PropelConfig :=
  { project := ProjectConfig.default
    build := BuildConfig.default
    cloud_run := CloudRunConfig.default }

/-- A configuration error, from `propel-core`'s error enum
(`ConfigLoad` / `ConfigParse`). -/
inductive ConfigError where
  | configLoad (detail : String)
  | configParse (detail : String)
deriving Repr, DecidableEq

/-- The state of `propel.toml` in the project directory, as observed by
`PropelConfig::load`: either no file exists, or a file exists with the given
text content. -/
inductive ConfigFile where
  | absent
  | present (content : String)

/-- `PropelConfig::load` from config.rs.  The external TOML deserializer
(`toml::from_str`) is abstracted as a `parse` oracle; the file system read is
abstracted by `ConfigFile`. -/
def PropelConfig.load (parse : String → Except String PropelConfig)
    (file : ConfigFile) : Except ConfigError PropelConfig :=
  match file with
  | .absent => .ok PropelConfig.default
  | .present content =>
    match parse content with
    | .ok cfg => .ok cfg
    | .error e => .error (.configParse e)

/- ### Project metadata

From `src/crates/propel-core/src/project.rs`. -/

/-- `ProjectMeta` from project.rs. -/
structure ProjectMeta where
  name : String
  version : String
  binary_name : String
deriving Repr, DecidableEq

/- ### Dockerfile generation

From `src/crates/propel-build/src/dockerfile.rs`
(`DockerfileGenerator::render`, `render_runtime_copies`,
`render_env_directives`). -/

/-- Rust `str::trim_end_matches('/')`: drop every trailing `'/'`. -/
def trimEndSlashes (s : String) : String :=
  ⟨(s.data.reverse.dropWhile (fun c => c = '/')).reverse⟩

/-- `DockerfileGenerator::render_runtime_copies` from dockerfile.rs. -/
def render_runtime_copies (config : BuildConfig) : String :=
  match config.«include» with
  | none => "COPY . .\n"
  | some [] => ""
  | some paths =>
    String.join (paths.map (fun path =>
      let trimmed := trimEndSlashes path
      "COPY " ++ trimmed ++ "/ ./" ++ trimmed ++ "/\n"))

/-- `DockerfileGenerator::render_env_directives` from dockerfile.rs: collect
the keys, sort them, emit one `ENV` line per key. -/
def render_env_directives (config : BuildConfig) : String :=
  if config.env.isEmpty then ""
  else
    let keys := (config.env.map Prod.fst).insertionSort (· ≤ ·)
    String.join (keys.map (fun key =>
      let value := (config.env.lookup key).getD ""
      "ENV " ++ key ++ "=" ++ value ++ "\n"))

/-- The `extra_packages` block of `DockerfileGenerator::render`: empty, or a
single `apt-get` line naming every listed package. -/
def extra_packages_block (config : BuildConfig) : String :=
  if config.extra_packages.isEmpty then ""
  else
    "RUN apt-get update && apt-get install -y " ++
      String.intercalate " " config.extra_packages ++
      " && rm -rf /var/lib/apt/lists/*\n"

/-- `DockerfileGenerator::render` from dockerfile.rs: the full multi-stage
Dockerfile template with the configured values substituted. -/
def render (config : BuildConfig) (meta : ProjectMeta) (port : Nat) : String :=
  let extra_packages := extra_packages_block config
  let runtime_copies := render_runtime_copies config
  let env_directives := render_env_directives config
  "# === Base: cargo-chef installed once ===\n" ++
  "FROM " ++ config.base_image ++ " AS chef\n" ++
  "RUN cargo install cargo-chef --version " ++ config.cargo_chef_version ++
    " --locked\n" ++
  "WORKDIR /app\n" ++
  "\n" ++
  "# === Stage 1: Planner ===\n" ++
  "FROM chef AS planner\n" ++
  "COPY . .\n" ++
  "RUN cargo chef prepare --recipe-path recipe.json\n" ++
  "\n" ++
  "# === Stage 2: Cacher (dependency build) ===\n" ++
  "FROM chef AS cacher\n" ++
  extra_packages ++ "COPY --from=planner /app/recipe.json recipe.json\n" ++
  "RUN cargo chef cook --release --recipe-path recipe.json\n" ++
  "\n" ++
  "# === Stage 3: Builder ===\n" ++
  "FROM chef AS builder\n" ++
  extra_packages ++ "COPY --from=cacher /app/target target\n" ++
  "COPY --from=cacher /usr/local/cargo /usr/local/cargo\n" ++
  "COPY . .\n" ++
  "RUN cargo build --release --bin " ++ meta.binary_name ++ "\n" ++
  "\n" ++
  "# === Stage 4: Runtime ===\n" ++
  "FROM " ++ config.runtime_image ++ "\n" ++
  "COPY --from=builder /app/target/release/" ++ meta.binary_name ++
    " /usr/local/bin/app\n" ++
  "WORKDIR /app\n" ++
  runtime_copies ++ env_directives ++ "EXPOSE " ++ toString port ++ "\n" ++
  "CMD [\"app\"]\n"

/- ### Bundling

From `src/crates/propel-build/src/bundle.rs`.  A relative path is embedded
as its list of components (Rust `Path::starts_with` compares whole
components, never partial file names: `.propelrc` does not start with
`.propel`).  The external `git ls-files --cached --others --exclude-standard`
invocation is abstracted by its documented contract (tracked files plus
untracked files that are not ignored), with the tracked/untracked/ignored
classification supplied as parameters. -/

/-- `PROPEL_EXCLUDES` from bundle.rs. -/
def PROPEL_EXCLUDES : List String := [".propel-bundle", ".propel", ".git"]

/-- Rust `Path::starts_with` against a single-component base path. -/
def pathStartsWith (p : List String) (ex : String) : Bool :=
  match p with
  | [] => false
  | c :: _ => c == ex

/-- The skip test inside `create_bundle`'s copy loop. -/
def isPropelExcluded (p : List String) : Bool :=
  PROPEL_EXCLUDES.any (fun ex => pathStartsWith p ex)

/-- Contract of `git_ls_files` from bundle.rs (its doc comment: tracked
files + untracked files that are not gitignored; ignore rules apply to
untracked files only). -/
def git_ls_files (tracked untracked : List (List String))
    (ignored : List String → Bool) : List (List String) :=
  tracked ++ untracked.filter (fun p => !ignored p)

/-- The set of project files `create_bundle` copies into the staging
directory: the `git ls-files` output minus the fixed internal excludes. -/
def bundle_files (tracked untracked : List (List String))
    (ignored : List String → Bool) : List (List String) :=
  (git_ls_files tracked untracked ignored).filter (fun p => !isPropelExcluded p)

/- ### Cargo binary resolution

From `src/crates/propel-core/src/cargo.rs`. -/

/-- `CargoBinary` from cargo.rs. -/
structure CargoBinary where
  name : String
  src_path : String
deriving Repr, DecidableEq

/-- The variants of `propel_core::Error` raised by
`CargoProject::resolve_default_binary`. -/
inductive CargoError where
  | noBinaryTarget (package : String)
  | multipleBinaries (names : List String)
deriving Repr, DecidableEq

/-- The fallback `match binaries.len()` arm of `resolve_default_binary`
(reached when `default_run` is absent or names no existing binary). -/
def resolve_fallback (binaries : List CargoBinary) (package_name : String) :
    Except CargoError String :=
  match binaries with
  | [] => .error (.noBinaryTarget package_name)
  | [b] => .ok b.name
  | _ =>
    if binaries.any (fun b => b.name == package_name) then .ok package_name
    else .error (.multipleBinaries (binaries.map (fun b => b.name)))

/-- `CargoProject::resolve_default_binary` from cargo.rs: explicit
`default-run` first, then the length match. -/
def resolve_default_binary (binaries : List CargoBinary)
    (default_run : Option String) (package_name : String) :
    Except CargoError String :=
  match default_run with
  | some name =>
    if binaries.any (fun b => b.name == name) then .ok name
    else resolve_fallback binaries package_name
  | none => resolve_fallback binaries package_name

/- ### Cloud client

From `src/crates/propel-cloud/src/client.rs` and `gcloud.rs`.  The
`GcloudExecutor` is modelled as a response oracle mapping an argument
vector to the captured-output result the external `gcloud` process would
produce. -/

/-- `GcloudError` from gcloud.rs. -/
inductive GcloudError where
  | notFound
  | commandFailed (args : List String) (stderr : String)
  | invalidUtf8
  | stdinWrite
deriving Repr, DecidableEq

/-- `DeployError` from client.rs. -/
inductive DeployError where
  | deploy (source : GcloudError)
deriving Repr, DecidableEq

/-- `SecretError` from client.rs. -/
inductive SecretError where
  | create (source : GcloudError)
  | addVersion (source : GcloudError)
  | list (source : GcloudError)
  | grantAccess (source : GcloudError)
deriving Repr, DecidableEq

/-- An executor response oracle: what `exec` would return for a given
argument vector. -/
def ExecOracle : Type := List String → Except GcloudError String

/-- Argument vector of the `artifacts repositories describe` call issued by
`ensure_artifact_repo`. -/
def artifactRepoDescribeArgs (project_id region repo_name : String) :
    List String :=
  ["artifacts", "repositories", "describe", repo_name,
   "--project", project_id, "--location", region]

/-- Argument vector of the `artifacts repositories create` call issued by
`ensure_artifact_repo`. -/
def artifactRepoCreateArgs (project_id region repo_name : String) :
    List String :=
  ["artifacts", "repositories", "create", repo_name,
   "--project", project_id, "--location", region,
   "--repository-format", "docker", "--quiet"]

/-- `GcloudClient::ensure_artifact_repo` from client.rs: probe with a
`describe` call, and only when the probe fails attempt a `create`, whose
failure (whatever its error text) is propagated as a `DeployError`. -/
def ensure_artifact_repo (exec : ExecOracle)
    (project_id region repo_name : String) : Except DeployError Unit :=
  let exists_ := (exec (artifactRepoDescribeArgs project_id region repo_name)).isOk
  if exists_ then .ok ()
  else
    match exec (artifactRepoCreateArgs project_id region repo_name) with
    | .ok _ => .ok ()
    | .error e => .error (.deploy e)

/-- Decidable substring test on character lists. -/
def containsSub (pat s : List Char) : Bool :=
  s.tails.any (fun t => pat.isPrefixOf t)

/-- ASCII lower-casing of a character. -/
def charToLower (c : Char) : Char :=
  if 65 ≤ c.toNat ∧ c.toNat ≤ 90 then Char.ofNat (c.toNat + 32) else c

/-- Modelled from the spec: wording of a create failure indicating that the
resource already exists (the `ALREADY_EXISTS` / "already exists" texts
exercised by `client_test.rs`). -/
def alreadyExistsIndicated (stderr : String) : Bool :=
  let lower := stderr.data.map charToLower
  containsSub "already exists".data lower ||
    containsSub "already_exists".data lower

/-- Modelled from the spec: `WifError` of `ensure_wif_pool` /
`ensure_oidc_provider` (declared by `client_test.rs`; the function bodies are
not part of the published sources). -/
inductive WifError where
  | createPool (source : GcloudError)
  | createProvider (source : GcloudError)
deriving Repr, DecidableEq

/-- Modelled from the spec: error type of `ensure_service_account` (the
function body is not part of the published sources). -/
inductive IamError where
  | createServiceAccount (source : GcloudError)
deriving Repr, DecidableEq

/-- Modelled from the spec: `GcloudClient::ensure_wif_pool` — the function
body is not under `src/` (only its tests and its caller `ci.rs` are).  Per
§4.2, it attempts the create call; a failure whose text indicates
pre-existence is a successful no-op returning `false` ("not newly created"),
any other failure is propagated tagged with the resource kind. -/
def wifPoolCreateArgs (project_id pool_id : String) : List String :=
  ["iam", "workload-identity-pools", "create", pool_id,
   "--project", project_id, "--location", "global"]

def ensure_wif_pool (exec : ExecOracle) (project_id pool_id : String) :
    Except WifError Bool :=
  match exec (wifPoolCreateArgs project_id pool_id) with
  | .ok _ => .ok true
  | .error e =>
    match e with
    | .commandFailed _ stderr =>
      if alreadyExistsIndicated stderr then .ok false
      else .error (.createPool e)
    | _ => .error (.createPool e)

/-- Modelled from the spec: `GcloudClient::ensure_oidc_provider` — the
function body is not under `src/`; same idempotent-ensure pattern. -/
def oidcProviderCreateArgs (project_id pool_id provider_id github_repo : String) :
    List String :=
  ["iam", "workload-identity-pools", "providers", "create-oidc",
   provider_id, "--project", project_id, "--location", "global",
   "--workload-identity-pool", pool_id,
   "--issuer-uri", "https://token.actions.githubusercontent.com",
   "--attribute-condition", "assertion.repository == " ++ github_repo]

def ensure_oidc_provider (exec : ExecOracle)
    (project_id pool_id provider_id github_repo : String) :
    Except WifError Bool :=
  match exec (oidcProviderCreateArgs project_id pool_id provider_id github_repo) with
  | .ok _ => .ok true
  | .error e =>
    match e with
    | .commandFailed _ stderr =>
      if alreadyExistsIndicated stderr then .ok false
      else .error (.createProvider e)
    | _ => .error (.createProvider e)

/-- Modelled from the spec: `GcloudClient::ensure_service_account` — the
function body is not under `src/`; same idempotent-ensure pattern. -/
def serviceAccountCreateArgs (project_id sa_id display_name : String) :
    List String :=
  ["iam", "service-accounts", "create", sa_id,
   "--project", project_id, "--display-name", display_name]

def ensure_service_account (exec : ExecOracle)
    (project_id sa_id display_name : String) : Except IamError Bool :=
  match exec (serviceAccountCreateArgs project_id sa_id display_name) with
  | .ok _ => .ok true
  | .error e =>
    match e with
    | .commandFailed _ stderr =>
      if alreadyExistsIndicated stderr then .ok false
      else .error (.createServiceAccount e)
    | _ => .error (.createServiceAccount e)

/- ### The secret-set operation as an issued-command trace

`GcloudClient::set_secret` from client.rs, instrumented with the list of
commands it hands to the executor (argument vector plus optional piped
standard-input payload), in issue order. -/

/-- One command handed to the executor. -/
structure IssuedCommand where
  args : List String
  stdin : Option String
deriving Repr, DecidableEq

/-- Responses of the executor to the three calls `set_secret` can issue. -/
structure SecretExecEnv where
  describeRes : Except GcloudError String
  createRes : Except GcloudError String
  addVersionRes : Except GcloudError String

/-- Argument vector of `secrets describe` in `set_secret`. -/
def secretDescribeArgs (project_id secret_name : String) : List String :=
  ["secrets", "describe", secret_name, "--project", project_id]

/-- Argument vector of `secrets create` in `set_secret`. -/
def secretCreateArgs (project_id secret_name : String) : List String :=
  ["secrets", "create", secret_name, "--project", project_id,
   "--replication-policy", "automatic"]

/-- Argument vector of `secrets versions add` in `set_secret`; the payload
travels through `--data-file -`, i.e. standard input. -/
def secretAddVersionArgs (project_id secret_name : String) : List String :=
  ["secrets", "versions", "add", secret_name, "--project", project_id,
   "--data-file", "-"]

/-- `GcloudClient::set_secret` from client.rs: describe to test existence,
create only if absent, then always add a new version with the value piped to
standard input.  Returns the issued-command trace together with the
result. -/
def set_secret (env : SecretExecEnv)
    (project_id secret_name secret_value : String) :
    List IssuedCommand × Except SecretError Unit :=
  let describeCmd : IssuedCommand :=
    ⟨secretDescribeArgs project_id secret_name, none⟩
  let addCmd : IssuedCommand :=
    ⟨secretAddVersionArgs project_id secret_name, some secret_value⟩
  let secret_exists := env.describeRes.isOk
  if secret_exists then
    match env.addVersionRes with
    | .ok _ => ([describeCmd, addCmd], .ok ())
    | .error e => ([describeCmd, addCmd], .error (.addVersion e))
  else
    let createCmd : IssuedCommand :=
      ⟨secretCreateArgs project_id secret_name, none⟩
    match env.createRes with
    | .error e => ([describeCmd, createCmd], .error (.create e))
    | .ok _ =>
      match env.addVersionRes with
      | .ok _ => ([describeCmd, createCmd, addCmd], .ok ())
      | .error e => ([describeCmd, createCmd, addCmd], .error (.addVersion e))

/- ### Deploy pipeline

From `src/crates/propel-cli/src/commands/deploy_pipeline.rs` (`run`) and
`mod.rs` (`ARTIFACT_REPO_NAME`, `require_gcp_project_id`).  Every external
effect (git dirtiness, config load, Cargo.toml read, preflight probe,
registry ensure, ejected-Dockerfile check, bundling, Cloud Build submission,
secret listing, Cloud Run deploy) is abstracted as the `Except`-valued
result it produces, collected in a `PipelineEnv`; pipeline errors are the
`anyhow` message strings. -/

/-- `PreflightReport` from client.rs. -/
structure PreflightReport where
  gcloud_version : Option String
  authenticated : Bool
  project_name : Option String
  disabled_apis : List String
deriving Repr, DecidableEq

/-- `PreflightReport::has_warnings` from client.rs. -/
def PreflightReport.has_warnings (r : PreflightReport) : Bool :=
  !r.disabled_apis.isEmpty

/-- `ARTIFACT_REPO_NAME` from mod.rs. -/
def ARTIFACT_REPO_NAME : String := "propel"

/-- `DeployOutcome` from deploy_pipeline.rs. -/
structure DeployOutcome where
  steps : List String
  build_output : Option String
deriving Repr, DecidableEq

/-- The results of the external calls one `deploy_pipeline::run` invocation
can make, in pipeline order. -/
structure PipelineEnv where
  /-- `bundle::is_dirty(project_dir)` -/
  dirty : Except String Bool
  /-- `PropelConfig::load(project_dir)` -/
  config : Except String PropelConfig
  /-- `ProjectMeta::from_cargo_toml(project_dir)` -/
  meta : Except String ProjectMeta
  /-- `client.check_prerequisites(...)` -/
  preflight : Except String PreflightReport
  /-- `client.ensure_artifact_repo(...)` -/
  ensureRepo : Except String Unit
  /-- `eject::is_ejected(project_dir)` -/
  ejected : Bool
  /-- `eject::load_ejected_dockerfile(project_dir)` -/
  ejectedDockerfile : Except String String
  /-- `bundle::create_bundle(...)`, yielding the bundle path -/
  bundleDir : Except String String
  /-- `client.submit_build(...)`, yielding captured output when requested -/
  build : Except String (Option String)
  /-- `client.list_secrets(...)` -/
  secrets : Except String (List String)
  /-- `client.deploy_to_cloud_run(...)` as a function of the secret list,
  yielding the service URL -/
  deploy : List String → Except String String

/-- The dirty-tree abort message of `deploy_pipeline::run`. -/
def dirtyMsg : String :=
  "uncommitted changes detected.\nCommit your changes, or pass --allow-dirty / allow_dirty=true to deploy anyway."

/-- The error message of `require_gcp_project_id` from mod.rs. -/
def missingProjectIdMsg : String :=
  "gcp_project_id not set in propel.toml — set [project].gcp_project_id"

/-- `deploy_pipeline::run`: the linear deploy state machine.  `capture_build`
only routes the Cloud Build output; `allow_dirty` short-circuits the dirty
check entirely (Rust `!allow_dirty && bundle::is_dirty(dir)?`). -/
def pipeline_run (allow_dirty capture_build : Bool) (env : PipelineEnv) :
    Except String DeployOutcome := do
  if !allow_dirty then
    let d ← env.dirty
    if d then
      throw dirtyMsg
  let config ← env.config
  let meta ← env.meta
  let gcp_project_id ←
    match config.project.gcp_project_id with
    | some pid => pure pid
    | none => throw missingProjectIdMsg
  let service_name := config.project.name.getD meta.name
  let region := config.project.region
  let repo_name := ARTIFACT_REPO_NAME
  let _image_tag := region ++ "-docker.pkg.dev/" ++ gcp_project_id ++ "/" ++
    repo_name ++ "/" ++ service_name ++ ":latest"
  let report ← env.preflight
  if report.has_warnings then
    throw ("Required APIs not enabled: " ++
      String.intercalate ", " report.disabled_apis ++
      ". Enable them with: gcloud services enable <api> --project " ++
      gcp_project_id)
  let steps₀ := ["Pre-flight checks passed"]
  let _ ← env.ensureRepo
  let steps₁ := steps₀ ++ ["Artifact Registry repository ensured"]
  let (steps₂, _dockerfile_content) ←
    if env.ejected then do
      let content ← env.ejectedDockerfile
      pure (steps₁ ++ ["Using ejected Dockerfile"], content)
    else
      pure (steps₁, render config.build meta config.cloud_run.port)
  let _bundle_dir ← env.bundleDir
  let steps₃ := steps₂ ++ ["Source bundled"]
  let build_output ← env.build
  let steps₄ := steps₃ ++ ["Cloud Build completed"]
  let (steps₅, secrets) ←
    match env.secrets with
    | .ok s => pure (steps₄, s)
    | .error e =>
      pure (steps₄ ++ ["Warning: could not list secrets: " ++ e], ([] : List String))
  let steps₆ :=
    if secrets.isEmpty then
      steps₅ ++ ["No secrets found in Secret Manager"]
    else
      steps₅ ++ [toString secrets.length ++ " secret(s) will be injected"]
  let url ← env.deploy secrets
  let steps₇ := steps₆ ++ ["Deployed: " ++ url]
  let _ := capture_build
  pure { steps := steps₇, build_output := build_output }

/- ## Theorems -/

/- ### C10 — configuration loading defaults -/

/-- C10: loading configuration from a directory without `propel.toml`
succeeds with the full-default configuration (region us-central1, port 8080,
memory 512Mi, cpu 1, min instances 0, max instances 10, concurrency 80, no
project id, no included-paths list, empty package list and env map); an
existing but unparsable file is a `ConfigParse` error. -/
theorem config_load_defaults :
    ((∀ parse : String → Except String PropelConfig,
        PropelConfig.load parse .absent = .ok PropelConfig.default) ∧
      PropelConfig.default.project.region = "us-central1" ∧
      PropelConfig.default.cloud_run.port = 8080 ∧
      PropelConfig.default.cloud_run.memory = "512Mi" ∧
      PropelConfig.default.cloud_run.cpu = 1 ∧
      PropelConfig.default.cloud_run.min_instances = 0 ∧
      PropelConfig.default.cloud_run.max_instances = 10 ∧
      PropelConfig.default.cloud_run.concurrency = 80 ∧
      PropelConfig.default.project.gcp_project_id = none ∧
      PropelConfig.default.build.«include» = none ∧
      PropelConfig.default.build.extra_packages = [] ∧
      PropelConfig.default.build.env = []) ∧
    (∀ (parse : String → Except String PropelConfig) (content e : String),
      parse content = .error e →
      PropelConfig.load parse (.present content) = .error (.configParse e)) := by
  refine ⟨⟨fun _ => rfl, ?_⟩, fun parse content e h => ?_⟩
  · repeat constructor
  · simp [PropelConfig.load, h]

/-- Witness for C10 at a concrete parse oracle and file content. -/
theorem config_load_defaults_witness :
    PropelConfig.load (fun _ => .error "expected an equals, found an identifier")
        (.present "not toml at all") =
      .error (.configParse "expected an equals, found an identifier") :=
  config_load_defaults.2 _ "not toml at all" _ rfl

/- ### C8 — entry-point resolution -/

theorem resolve_fallback_ok_mem (binaries : List CargoBinary)
    (package_name name : String)
    (h : resolve_fallback binaries package_name = .ok name) :
    name ∈ binaries.map (fun b => b.name) := by
  match binaries, h with
  | [b], h =>
    simp only [resolve_fallback, Except.ok.injEq] at h
    simp [← h]
  | b₁ :: b₂ :: bs, h =>
    simp only [resolve_fallback] at h
    split at h
    · next hany =>
      rcases List.any_eq_true.mp hany with ⟨b, hb, hname⟩
      cases h
      exact List.mem_map.mpr ⟨b, hb, (of_decide_eq_true hname).symm ▸ rfl⟩
    · cases h

/-- C8: entry-point resolution returns one of the discovered binary targets
or errs: an explicit `default-run` naming an existing target wins; a single
target is always chosen; with several targets and no applicable selection the
target named like the package is chosen when present and otherwise the
resolution is an error; with no targets it is always an error. -/
theorem resolve_default_binary_spec :
    (∀ (binaries : List CargoBinary) (default_run : Option String)
        (package_name name : String),
      resolve_default_binary binaries default_run package_name = .ok name →
      name ∈ binaries.map (fun b => b.name)) ∧
    (∀ (binaries : List CargoBinary) (name package_name : String),
      binaries.any (fun b => b.name == name) = true →
      resolve_default_binary binaries (some name) package_name = .ok name) ∧
    (∀ (b : CargoBinary) (default_run : Option String) (package_name : String),
      resolve_default_binary [b] default_run package_name = .ok b.name) ∧
    (∀ (binaries : List CargoBinary) (default_run : Option String)
        (package_name : String),
      2 ≤ binaries.length →
      (∀ n, default_run = some n →
        binaries.any (fun b => b.name == n) = false) →
      (binaries.any (fun b => b.name == package_name) = true →
        resolve_default_binary binaries default_run package_name =
          .ok package_name) ∧
      (binaries.any (fun b => b.name == package_name) = false →
        (resolve_default_binary binaries default_run package_name).isOk =
          false)) ∧
    (∀ (default_run : Option String) (package_name : String),
      (resolve_default_binary [] default_run package_name).isOk = false) := by
  refine ⟨?_, ?_, ?_, ?_, ?_⟩
  · intro binaries default_run package_name name h
    match default_run with
    | none => exact resolve_fallback_ok_mem _ _ _ h
    | some dr =>
      simp only [resolve_default_binary] at h
      split at h
      · next hany =>
        cases h
        rcases List.any_eq_true.mp hany with ⟨b, hb, hname⟩
        exact List.mem_map.mpr ⟨b, hb, of_decide_eq_true hname⟩
      · exact resolve_fallback_ok_mem _ _ _ h
  · intro binaries name package_name h
    simp [resolve_default_binary, h]
  · intro b default_run package_name
    match default_run with
    | none => rfl
    | some dr =>
      simp only [resolve_default_binary]
      split
      · next hany =>
        rcases List.any_eq_true.mp hany with ⟨b', hb', hname⟩
        rcases List.mem_singleton.mp hb' with rfl
        exact congrArg Except.ok (of_decide_eq_true hname).symm
      · rfl
  · intro binaries default_run package_name hlen hdr
    have hfall : resolve_default_binary binaries default_run package_name =
        resolve_fallback binaries package_name := by
      match default_run with
      | none => rfl
      | some dr => simp [resolve_default_binary, hdr dr rfl]
    match binaries, hlen with
    | b₁ :: b₂ :: bs, _ =>
      constructor
      · intro hany
        rw [hfall]
        simp [resolve_fallback, hany]
      · intro hnone
        rw [hfall]
        simp [resolve_fallback, hnone, Except.isOk, Except.toBool]
  · intro default_run package_name
    match default_run with
    | none => rfl
    | some dr =>
      simp [resolve_default_binary, resolve_fallback, Except.isOk, Except.toBool]

/-- Witness for C8 at concrete binary lists. -/
theorem resolve_default_binary_spec_witness :
    resolve_default_binary
        [⟨"server", "src/bin/server.rs"⟩, ⟨"worker", "src/bin/worker.rs"⟩]
        (some "worker") "my-pkg" = .ok "worker" ∧
    resolve_default_binary
        [⟨"my-pkg", "src/main.rs"⟩, ⟨"worker", "src/bin/worker.rs"⟩]
        none "my-pkg" = .ok "my-pkg" ∧
    (resolve_default_binary
        [⟨"server", "src/bin/server.rs"⟩, ⟨"worker", "src/bin/worker.rs"⟩]
        none "my-pkg").isOk = false ∧
    "worker" ∈
      ([⟨"server", "src/bin/server.rs"⟩, ⟨"worker", "src/bin/worker.rs"⟩] :
        List CargoBinary).map (fun b => b.name) :=
  ⟨resolve_default_binary_spec.2.1 _ "worker" "my-pkg" (by decide),
   (resolve_default_binary_spec.2.2.2.1 _ none "my-pkg" (by decide)
      (by intro n h; cases h)).1 (by decide),
   (resolve_default_binary_spec.2.2.2.1 _ none "my-pkg" (by decide)
      (by intro n h; cases h)).2 (by decide),
   resolve_default_binary_spec.1 _ (some "worker") "my-pkg" "worker"
     (resolve_default_binary_spec.2.1 _ "worker" "my-pkg" (by decide))⟩

/- ### C5 — dirty-check gate -/

/-- C5: with a dirty source tree and no override the pipeline aborts with the
"uncommitted changes" precondition error before consulting anything else;
with the override set the run is entirely independent of the dirty state. -/
theorem dirty_gate (env : PipelineEnv) (cap : Bool) :
    pipeline_run false cap { env with dirty := .ok true } = .error dirtyMsg ∧
    containsSub "uncommitted changes".data dirtyMsg.data = true ∧
    (∀ d, pipeline_run true cap { env with dirty := d } =
      pipeline_run true cap env) := by
  refine ⟨rfl, by decide, fun d => rfl⟩

/- ### C4 — non-fatal secret-listing failure -/

/-- C4: when every step up to secret discovery succeeds and the
secret-listing call fails, the pipeline records a warning step, proceeds
with zero secrets into the deploy step, and completes successfully. -/
theorem secret_listing_failure_nonfatal (env : PipelineEnv) (cap : Bool)
    (cfg : PropelConfig) (m : ProjectMeta) (pr : PreflightReport)
    (pid bd url e : String) (bo : Option String)
    (h1 : env.dirty = .ok false)
    (h2 : env.config = .ok cfg)
    (h3 : cfg.project.gcp_project_id = some pid)
    (h4 : env.meta = .ok m)
    (h5 : env.preflight = .ok pr)
    (h6 : pr.disabled_apis = [])
    (h7 : env.ensureRepo = .ok ())
    (h8 : env.ejected = false)
    (h9 : env.bundleDir = .ok bd)
    (h10 : env.build = .ok bo)
    (h11 : env.secrets = .error e)
    (h12 : env.deploy [] = .ok url) :
    pipeline_run false cap env = .ok
      { steps := ["Pre-flight checks passed",
                  "Artifact Registry repository ensured",
                  "Source bundled",
                  "Cloud Build completed",
                  "Warning: could not list secrets: " ++ e,
                  "No secrets found in Secret Manager",
                  "Deployed: " ++ url],
        build_output := bo } := by
  simp [pipeline_run, h1, h2, h3, h4, h5, h6, h7, h8, h9, h10, h11, h12,
    PreflightReport.has_warnings, Bind.bind, Except.bind, Pure.pure,
    Except.pure]

/-- A concrete environment for the C4 witness: every provisioning step
succeeds but listing secrets is denied. -/
def listFailEnv : PipelineEnv :=
  { dirty := .ok false
    config := .ok
      { project := { name := none, region := "us-central1",
                     gcp_project_id := some "demo-project" }
        build := BuildConfig.default
        cloud_run := CloudRunConfig.default }
    meta := .ok ⟨"demo", "0.1.0", "demo"⟩
    preflight := .ok ⟨some "495.0.0", true, some "demo-project", []⟩
    ensureRepo := .ok ()
    ejected := false
    ejectedDockerfile := .error "no ejected Dockerfile"
    bundleDir := .ok ".propel-bundle"
    build := .ok none
    secrets := .error "failed to list secrets"
    deploy := fun _ => .ok "https://demo.a.run.app" }

/-- Witness for C4 on `listFailEnv`. -/
theorem secret_listing_failure_nonfatal_witness :
    pipeline_run false false listFailEnv = .ok
      { steps := ["Pre-flight checks passed",
                  "Artifact Registry repository ensured",
                  "Source bundled",
                  "Cloud Build completed",
                  "Warning: could not list secrets: " ++ "failed to list secrets",
                  "No secrets found in Secret Manager",
                  "Deployed: " ++ "https://demo.a.run.app"],
        build_output := none } :=
  secret_listing_failure_nonfatal listFailEnv false _ _ _
    "demo-project" ".propel-bundle" "https://demo.a.run.app"
    "failed to list secrets" none
    rfl rfl rfl rfl rfl rfl rfl rfl rfl rfl rfl rfl

/- ### C7 — bundle exclusions -/

/-- C7: no path below one of the fixed internal-exclude directories is ever
copied into the bundle (ignore rules notwithstanding), and every untracked
path matched by the ignore rules is absent from the bundle even when it is
not internal. -/
theorem bundle_exclusions (tracked untracked : List (List String))
    (ignored : List String → Bool) :
    (∀ p ∈ bundle_files tracked untracked ignored,
      isPropelExcluded p = false) ∧
    (∀ p, ignored p = true → p ∉ tracked →
      p ∉ bundle_files tracked untracked ignored) := by
  constructor
  · intro p hp
    have := (List.mem_filter.mp hp).2
    simpa using this
  · intro p hig htr hmem
    have hgit := (List.mem_filter.mp hmem).1
    rcases List.mem_append.mp hgit with h | h
    · exact htr h
    · have := (List.mem_filter.mp h).2
      simp [hig] at this

/-- Witness for C7: a concrete tree where `.git/config` survives the ignore
rules but not the internal excludes, and an ignored `debug.log` is untracked
and absent. -/
theorem bundle_exclusions_witness :
    (∀ p ∈ bundle_files [["src", "main.rs"], [".git", "config"]]
        [["debug.log"], ["notes.txt"]]
        (fun p => p == [["debug.log"]].head!),
      isPropelExcluded p = false) ∧
    ["debug.log"] ∉ bundle_files [["src", "main.rs"], [".git", "config"]]
        [["debug.log"], ["notes.txt"]]
        (fun p => p == [["debug.log"]].head!) :=
  ⟨(bundle_exclusions _ _ _).1,
   (bundle_exclusions _ _ _).2 ["debug.log"] (by decide) (by decide)⟩

/- ### C9 — secret values never enter argument vectors -/

/-- C9: the argument vectors `set_secret` issues are identical for any two
runs differing only in the secret value, and the value reaches the executor
exclusively as the piped standard-input payload of the `versions add`
call. -/
theorem set_secret_value_noninterference :
    (∀ (env : SecretExecEnv) (project_id secret_name v₁ v₂ : String),
      (set_secret env project_id secret_name v₁).1.map (fun c => c.args) =
        (set_secret env project_id secret_name v₂).1.map (fun c => c.args)) ∧
    (∀ (env : SecretExecEnv) (project_id secret_name v : String),
      ∀ c ∈ (set_secret env project_id secret_name v).1,
        c.stdin = none ∨
          (c.stdin = some v ∧
            c.args = secretAddVersionArgs project_id secret_name)) := by
  constructor
  · intro env project_id secret_name v₁ v₂
    unfold set_secret
    rcases hd : env.describeRes with e | r <;>
      rcases hc : env.createRes with e' | r' <;>
      rcases ha : env.addVersionRes with e'' | r'' <;>
      simp [Except.isOk, Except.toBool, hd, hc, ha]
  · intro env project_id secret_name v c hc
    unfold set_secret at hc
    rcases hd : env.describeRes with e | r <;>
      rcases hcr : env.createRes with e' | r' <;>
      rcases ha : env.addVersionRes with e'' | r'' <;>
      simp [Except.isOk, Except.toBool, hd, hcr, ha] at hc <;>
      rcases hc with rfl | rfl | rfl <;>
      simp

/-- Witness for C9: the trace of a run that creates the secret and adds a
version, checked command by command. -/
theorem set_secret_value_noninterference_witness :
    ((set_secret ⟨.error (.commandFailed [] "NOT_FOUND"), .ok "", .ok ""⟩
        "demo-project" "API_KEY" "hunter2").1.map (fun c => c.args) =
      (set_secret ⟨.error (.commandFailed [] "NOT_FOUND"), .ok "", .ok ""⟩
        "demo-project" "API_KEY" "s3cr3t").1.map (fun c => c.args)) ∧
    ∀ c ∈ (set_secret ⟨.error (.commandFailed [] "NOT_FOUND"), .ok "", .ok ""⟩
        "demo-project" "API_KEY" "hunter2").1,
      c.stdin = none ∨
        (c.stdin = some "hunter2" ∧
          c.args = secretAddVersionArgs "demo-project" "API_KEY") :=
  ⟨set_secret_value_noninterference.1 _ "demo-project" "API_KEY"
      "hunter2" "s3cr3t",
   set_secret_value_noninterference.2 _ "demo-project" "API_KEY" "hunter2"⟩

/- ### C1 — the idempotent-ensure pattern -/

/-- Executor responses for the C1 counterexample: the Artifact Registry
`describe` probe fails, and the subsequent `create` fails with wording that
plainly indicates pre-existence. -/
def repoRaceExec : ExecOracle := fun args =>
  if args = artifactRepoDescribeArgs "demo-project" "us-central1" "propel" then
    .error (.commandFailed args "NOT_FOUND: repository not found")
  else if args = artifactRepoCreateArgs "demo-project" "us-central1" "propel" then
    .error (.commandFailed args "ALREADY_EXISTS: the repository already exists")
  else
    .ok ""

/-- C1 counterexample: for the container-registry repository, a create
failure whose error text indicates the resource already exists is *not*
treated as a successful no-op — `ensure_artifact_repo` propagates it as a
provisioning error, because this resource kind is ensured through a separate
`describe` existence probe, not through error-text matching. -/
theorem ensure_artifact_repo_not_error_text_matched :
    alreadyExistsIndicated "ALREADY_EXISTS: the repository already exists" =
      true ∧
    ensure_artifact_repo repoRaceExec "demo-project" "us-central1" "propel" =
      .error (.deploy (.commandFailed
        (artifactRepoCreateArgs "demo-project" "us-central1" "propel")
        "ALREADY_EXISTS: the repository already exists")) := by
  constructor
  · decide
  · rfl

/-- C1 (amended): the workload-identity pool, workload-identity OIDC
provider and service account ensures follow the error-text idempotent-ensure
pattern (create succeeded ⇒ newly created; create failed with pre-existence
wording ⇒ successful no-op reporting "not newly created"; any other create
failure ⇒ error tagged with the resource kind); the container-registry
repository ensure instead probes with a `describe` call and propagates every
create failure. -/
theorem idempotent_ensure_pattern :
    (∀ (exec : ExecOracle) (pid pool r : String),
      exec (wifPoolCreateArgs pid pool) = .ok r →
      ensure_wif_pool exec pid pool = .ok true) ∧
    (∀ (exec : ExecOracle) (pid pool : String) (a : List String)
        (stderr : String),
      exec (wifPoolCreateArgs pid pool) = .error (.commandFailed a stderr) →
      (alreadyExistsIndicated stderr = true →
        ensure_wif_pool exec pid pool = .ok false) ∧
      (alreadyExistsIndicated stderr = false →
        ensure_wif_pool exec pid pool =
          .error (.createPool (.commandFailed a stderr)))) ∧
    (∀ (exec : ExecOracle) (pid pool prov repo r : String),
      exec (oidcProviderCreateArgs pid pool prov repo) = .ok r →
      ensure_oidc_provider exec pid pool prov repo = .ok true) ∧
    (∀ (exec : ExecOracle) (pid pool prov repo : String) (a : List String)
        (stderr : String),
      exec (oidcProviderCreateArgs pid pool prov repo) =
        .error (.commandFailed a stderr) →
      (alreadyExistsIndicated stderr = true →
        ensure_oidc_provider exec pid pool prov repo = .ok false) ∧
      (alreadyExistsIndicated stderr = false →
        ensure_oidc_provider exec pid pool prov repo =
          .error (.createProvider (.commandFailed a stderr)))) ∧
    (∀ (exec : ExecOracle) (pid sa dn r : String),
      exec (serviceAccountCreateArgs pid sa dn) = .ok r →
      ensure_service_account exec pid sa dn = .ok true) ∧
    (∀ (exec : ExecOracle) (pid sa dn : String) (a : List String)
        (stderr : String),
      exec (serviceAccountCreateArgs pid sa dn) =
        .error (.commandFailed a stderr) →
      (alreadyExistsIndicated stderr = true →
        ensure_service_account exec pid sa dn = .ok false) ∧
      (alreadyExistsIndicated stderr = false →
        ensure_service_account exec pid sa dn =
          .error (.createServiceAccount (.commandFailed a stderr)))) ∧
    (∀ (exec : ExecOracle) (pid region repo r : String),
      exec (artifactRepoDescribeArgs pid region repo) = .ok r →
      ensure_artifact_repo exec pid region repo = .ok ()) ∧
    (∀ (exec : ExecOracle) (pid region repo : String) (ed e : GcloudError),
      exec (artifactRepoDescribeArgs pid region repo) = .error ed →
      exec (artifactRepoCreateArgs pid region repo) = .error e →
      ensure_artifact_repo exec pid region repo = .error (.deploy e)) := by
  refine ⟨?_, ?_, ?_, ?_, ?_, ?_, ?_, ?_⟩
  · intro exec pid pool r h
    simp [ensure_wif_pool, h]
  · intro exec pid pool a stderr h
    constructor <;> intro hw <;> simp [ensure_wif_pool, h, hw]
  · intro exec pid pool prov repo r h
    simp [ensure_oidc_provider, h]
  · intro exec pid pool prov repo a stderr h
    constructor <;> intro hw <;> simp [ensure_oidc_provider, h, hw]
  · intro exec pid sa dn r h
    simp [ensure_service_account, h]
  · intro exec pid sa dn a stderr h
    constructor <;> intro hw <;> simp [ensure_service_account, h, hw]
  · intro exec pid region repo r h
    simp [ensure_artifact_repo, h, Except.isOk, Except.toBool]
  · intro exec pid region repo ed e hd hc
    simp [ensure_artifact_repo, hd, hc, Except.isOk, Except.toBool]

/-- Executor responses for the C1 witness: the pool create reports
pre-existence, the provider create succeeds, the service-account create
fails with an unrelated permission error, the repository describe probe
succeeds. -/
def ensureWitnessExec : ExecOracle := fun args =>
  if args = wifPoolCreateArgs "demo-project" "propel-github" then
    .error (.commandFailed args "ALREADY_EXISTS: resource already exists")
  else if args = oidcProviderCreateArgs "demo-project" "propel-github"
      "github" "owner/repo" then
    .ok ""
  else if args = serviceAccountCreateArgs "demo-project" "propel-deploy"
      "Propel CI Deploy" then
    .error (.commandFailed args "permission denied")
  else if args = artifactRepoDescribeArgs "demo-project" "us-central1"
      "propel" then
    .ok "registry description"
  else
    .ok ""

/-- Witness for C1 on `ensureWitnessExec`. -/
theorem idempotent_ensure_pattern_witness :
    ensure_wif_pool ensureWitnessExec "demo-project" "propel-github" =
      .ok false ∧
    ensure_oidc_provider ensureWitnessExec "demo-project" "propel-github"
      "github" "owner/repo" = .ok true ∧
    ensure_service_account ensureWitnessExec "demo-project" "propel-deploy"
      "Propel CI Deploy" =
        .error (.createServiceAccount (.commandFailed
          (serviceAccountCreateArgs "demo-project" "propel-deploy"
            "Propel CI Deploy") "permission denied")) ∧
    ensure_artifact_repo ensureWitnessExec "demo-project" "us-central1"
      "propel" = .ok () :=
  ⟨(idempotent_ensure_pattern.2.1 ensureWitnessExec "demo-project"
      "propel-github"
      (wifPoolCreateArgs "demo-project" "propel-github")
      "ALREADY_EXISTS: resource already exists" rfl).1 (by decide),
   idempotent_ensure_pattern.2.2.1 ensureWitnessExec "demo-project"
     "propel-github" "github" "owner/repo" "" rfl,
   (idempotent_ensure_pattern.2.2.2.2.2.1 ensureWitnessExec "demo-project"
      "propel-deploy" "Propel CI Deploy"
      (serviceAccountCreateArgs "demo-project" "propel-deploy"
        "Propel CI Deploy")
      "permission denied" rfl).2 (by decide),
   idempotent_ensure_pattern.2.2.2.2.2.2.1 ensureWitnessExec "demo-project"
     "us-central1" "propel" "registry description" rfl⟩

/- ### C2 — runtime-stage copy instructions -/

/-- C2: evaluating the runtime-copy rendering at the failing input.  With
`include = Some(["lua/", "seeds.txt"])` — the very example documented in the
generated `propel.toml` template ("Files MUST NOT end with `/` →
`COPY file ./file`") — the file path `seeds.txt` is rendered with directory
syntax (`COPY seeds.txt/ ./seeds.txt/`), not copied individually as a file;
`None` still yields the blanket copy and `Some([])` copies nothing. -/
theorem runtime_copies_file_rendered_as_directory :
    render_runtime_copies
        { BuildConfig.default with «include» := some ["lua/", "seeds.txt"] } =
      "COPY lua/ ./lua/\n" ++ "COPY seeds.txt/ ./seeds.txt/\n" ∧
    render_runtime_copies
        { BuildConfig.default with «include» := some ["seeds.txt"] } ≠
      "COPY seeds.txt ./seeds.txt\n" ∧
    render_runtime_copies BuildConfig.default = "COPY . .\n" ∧
    render_runtime_copies
        { BuildConfig.default with «include» := some [] } = "" := by
  refine ⟨rfl, by decide, rfl, rfl⟩

/- ### String and lookup helper lemmas -/

theorem join_data (l : List String) :
    (String.join l).data = (l.map String.data).flatten := by
  have h : ∀ (l : List String) (acc : String),
      (l.foldl (fun r s => r ++ s) acc).data =
        acc.data ++ (l.map String.data).flatten := by
    intro l
    induction l with
    | nil => intro acc; simp
    | cons a t ih => intro acc; simp [ih, List.append_assoc]
  simpa [String.join] using h l ""

theorem lookup_some_mem {l : List (String × String)} {k v : String}
    (h : l.lookup k = some v) : (k, v) ∈ l := by
  induction l with
  | nil => simp [List.lookup] at h
  | cons a t ih =>
    rw [List.lookup] at h
    split at h
    · next hbeq =>
      cases h
      rcases a with ⟨f, s⟩
      have hk : k = f := eq_of_beq hbeq
      subst hk
      exact List.mem_cons_self _ _
    · right
      exact ih h

theorem lookup_eq_of_perm {l₁ l₂ : List (String × String)}
    (hp : List.Perm l₁ l₂) (hn : (l₁.map Prod.fst).Nodup) (k : String) :
    l₁.lookup k = l₂.lookup k := by
  induction hp with
  | nil => rfl
  | cons x hp ih =>
    rw [List.lookup, List.lookup]
    split
    · rfl
    · exact ih (by simpa using (List.nodup_cons.mp (by simpa using hn)).2)
  | swap x y l =>
    rcases x with ⟨x1, x2⟩
    rcases y with ⟨y1, y2⟩
    have hyx : y1 ≠ x1 := by
      have h' := hn
      simp only [List.map_cons, List.nodup_cons] at h'
      exact fun hc => h'.1 (hc ▸ List.mem_cons_self _ _)
    rcases hky : k == y1 with _ | _ <;> rcases hkx : k == x1 with _ | _ <;>
      simp [List.lookup, hky, hkx]
    exact absurd ((eq_of_beq hky).symm.trans (eq_of_beq hkx)) hyx
  | trans hp₁ hp₂ ih₁ ih₂ =>
    rename_i l₁' l₂' l₃'
    have hn₂ : (l₂'.map Prod.fst).Nodup :=
      ((hp₁.map Prod.fst).nodup_iff).mp hn
    exact (ih₁ hn).trans (ih₂ hn₂)

theorem nlFree_trimEndSlashes {p : String} (h : '\n' ∉ p.data) :
    '\n' ∉ (trimEndSlashes p).data := by
  intro hmem
  apply h
  have h1 : '\n' ∈ p.data.reverse.dropWhile (fun c => c = '/') := by
    simpa [trimEndSlashes] using hmem
  have h2 : '\n' ∈ p.data.reverse :=
    (List.dropWhile_sublist (fun c => c = '/')).mem h1
  simpa using h2

/-- Whether a character list starts an `apt-get` install instruction. -/
def isInstallLine (l : List Char) : Bool :=
  "RUN apt-get".data.isPrefixOf l

/-- The install-instruction lines of a rendered recipe. -/
def installInstructionLines (s : String) : List (List Char) :=
  (linesOf s).filter isInstallLine

theorem isPrefixOf_append_eq_false (pat lit X : List Char)
    (h : pat.take lit.length ≠ lit.take pat.length) :
    pat.isPrefixOf (lit ++ X) = false := by
  rcases hb : pat.isPrefixOf (lit ++ X) with _ | _
  · rfl
  · exfalso
    apply h
    have hp : pat <+: lit ++ X := List.isPrefixOf_iff_prefix.mp hb
    have heq : pat = (lit ++ X).take pat.length :=
      List.prefix_iff_eq_take.mp hp
    have h1 : pat.take lit.length =
        (lit ++ X).take (min lit.length pat.length) := by
      rw [show pat.take lit.length = ((lit ++ X).take pat.length).take lit.length
          from by rw [← heq], List.take_take]
    have h2 : (lit ++ X).take (min lit.length pat.length) =
        lit.take (min lit.length pat.length) := by
      apply List.take_append_of_le_length
      exact le_trans (min_le_left _ _) le_rfl
    rw [h1, h2]
    rcases le_total pat.length lit.length with hle | hle
    · rw [min_eq_right hle]
    · rw [min_eq_left hle, List.take_of_length_le hle,
        List.take_of_length_le le_rfl]

theorem isPrefixOf_append_eq_true (pat lit X : List Char)
    (h : pat.isPrefixOf lit = true) : pat.isPrefixOf (lit ++ X) = true := by
  have hp : pat <+: lit := List.isPrefixOf_iff_prefix.mp h
  exact List.isPrefixOf_iff_prefix.mpr (hp.trans (List.prefix_append lit X))

/- ### C6 — deterministic ENV rendering -/

/-- The keys of the static env map in the order `render_env_directives`
emits them. -/
def sortedEnvKeys (config : BuildConfig) : List String :=
  (config.env.map Prod.fst).insertionSort (· ≤ ·)

/-- The characters of the `ENV` line emitted for one key. -/
def envLineData (config : BuildConfig) (key : String) : List Char :=
  ("ENV " ++ key ++ "=" ++ ((config.env.lookup key).getD "")).data

/-- The `ENV` lines of the rendered env block, in emission order. -/
def envLinesDataList (config : BuildConfig) : List (List Char) :=
  if config.env.isEmpty then []
  else (sortedEnvKeys config).map (envLineData config)

theorem env_directives_data (config : BuildConfig) :
    (render_env_directives config).data =
      ((envLinesDataList config).map (fun l => l ++ ['\n'])).flatten := by
  rcases he : config.env with _ | ⟨kv, rest⟩
  · simp [render_env_directives, envLinesDataList, he]
  · have hne : config.env.isEmpty = false := by rw [he]; rfl
    simp only [render_env_directives, envLinesDataList, hne, if_neg,
      Bool.false_eq_true, not_false_iff, join_data, List.map_map]
    rfl

theorem env_value_nlFree (config : BuildConfig)
    (h : ∀ kv ∈ config.env, '\n' ∉ (kv.1 : String).data ∧ '\n' ∉ kv.2.data)
    (k : String) : '\n' ∉ ((config.env.lookup k).getD "").data := by
  rcases hl : config.env.lookup k with _ | v
  · simp
  · have hmem := lookup_some_mem hl
    simpa using (h _ hmem).2

theorem env_line_nlFree (config : BuildConfig)
    (h : ∀ kv ∈ config.env, '\n' ∉ (kv.1 : String).data ∧ '\n' ∉ kv.2.data)
    (k : String) (hk : k ∈ sortedEnvKeys config) :
    '\n' ∉ envLineData config k := by
  have hkeys : k ∈ config.env.map Prod.fst := by
    have := hk
    rw [sortedEnvKeys] at this
    exact List.mem_insertionSort (· ≤ ·) |>.mp this
  rcases List.mem_map.mp hkeys with ⟨kv, hkv, hfst⟩
  have hkey : '\n' ∉ k.data := hfst ▸ (h kv hkv).1
  have hval := env_value_nlFree config h k
  simp only [envLineData, String.data_append]
  intro hmem
  rcases List.mem_append.mp hmem with h' | h'
  · rcases List.mem_append.mp h' with h'' | h''
    · rcases List.mem_append.mp h'' with h''' | h'''
      · simp at h'''
      · exact hkey h'''
    · simp at h''
  · exact hval h'

/-- The lines of the rendered env block. -/
theorem env_directives_lines (config : BuildConfig)
    (h : ∀ kv ∈ config.env, '\n' ∉ (kv.1 : String).data ∧ '\n' ∉ kv.2.data) :
    linesOf (render_env_directives config) =
      (envLinesDataList config).map id ++ [[]] := by
  rw [linesOf, env_directives_data]
  rw [show ((envLinesDataList config).map (fun l => l ++ ['\n'])).flatten =
      ((envLinesDataList config).map (fun l => id l ++ ['\n'])).flatten from rfl,
    ← List.append_nil (((envLinesDataList config).map
      (fun l => id l ++ ['\n'])).flatten)]
  rw [splitOnChar_join_lines id (envLinesDataList config) []]
  · rfl
  · intro a ha
    rcases he : config.env.isEmpty with _ | _
    · rw [envLinesDataList, if_neg (by simp [he])] at ha
      rcases List.mem_map.mp ha with ⟨k, hk, rfl⟩
      exact env_line_nlFree config h k hk
    · rw [envLinesDataList, if_pos (by simp [he])] at ha
      simp at ha

/-- C6: the ENV directives of the rendered recipe appear in sorted key
order; rendering is invariant under permutation of the (duplicate-free) env
map; an empty map renders no ENV directives. -/
theorem env_rendering_deterministic :
    (∀ config : BuildConfig,
      List.Sorted (· ≤ ·) (sortedEnvKeys config)) ∧
    (∀ config : BuildConfig,
      (∀ kv ∈ config.env, '\n' ∉ (kv.1 : String).data ∧ '\n' ∉ kv.2.data) →
      linesOf (render_env_directives config) =
        (sortedEnvKeys config).map (envLineData config) ++ [[]] ∨
      (config.env = [] ∧ render_env_directives config = "")) ∧
    (∀ (base : BuildConfig) (e₁ e₂ : List (String × String)),
      List.Perm e₁ e₂ → (e₁.map Prod.fst).Nodup →
      render_env_directives { base with env := e₁ } =
        render_env_directives { base with env := e₂ }) ∧
    (∀ config : BuildConfig, config.env = [] →
      render_env_directives config = "") := by
  refine ⟨?_, ?_, ?_, ?_⟩
  · intro config
    exact List.sorted_insertionSort _ _
  · intro config h
    rcases he : config.env with _ | ⟨kv, rest⟩
    · right
      exact ⟨rfl, by simp [render_env_directives, he]⟩
    · left
      have := env_directives_lines config h
      rw [List.map_id] at this
      rw [this, envLinesDataList, if_neg (by simp [he])]
  · intro base e₁ e₂ hp hn
    have hkeys : (e₁.map Prod.fst).insertionSort (· ≤ ·) =
        (e₂.map Prod.fst).insertionSort (· ≤ ·) := by
      haveI : IsAntisymm String (· ≤ ·) :=
        ⟨fun a b h1 h2 => le_antisymm h1 h2⟩
      refine List.eq_of_perm_of_sorted ?_ (List.sorted_insertionSort _ _)
        (List.sorted_insertionSort _ _)
      exact ((List.perm_insertionSort _ _).trans (hp.map Prod.fst)).trans
        (List.perm_insertionSort _ _).symm
    have hempty : e₁.isEmpty = e₂.isEmpty := by
      rcases e₁ with _ | _ <;> rcases e₂ with _ | _ <;>
        first
          | rfl
          | (exfalso; exact (by simpa using hp.length_eq))
    have hlookup : ∀ k, e₁.lookup k = e₂.lookup k :=
      lookup_eq_of_perm hp hn
    simp only [render_env_directives, hkeys, hempty]
    rcases e₂.isEmpty with _ | _
    · simp only [Bool.false_eq_true, if_neg, not_false_iff]
      congr 1
      apply List.map_congr_left
      intro k _
      rw [hlookup k]
    · rfl
  · intro config h
    simp [render_env_directives, h]

/-- Witness for C6: two insertion orders of the same two-entry map render
identically, and the map with keys LOG and AAA renders AAA first. -/
theorem env_rendering_deterministic_witness :
    render_env_directives { BuildConfig.default with
        env := [("LOG", "info"), ("AAA", "1")] } =
      render_env_directives { BuildConfig.default with
        env := [("AAA", "1"), ("LOG", "info")] } ∧
    linesOf (render_env_directives { BuildConfig.default with
        env := [("LOG", "info"), ("AAA", "1")] }) =
      (sortedEnvKeys { BuildConfig.default with
        env := [("LOG", "info"), ("AAA", "1")] }).map
        (envLineData { BuildConfig.default with
          env := [("LOG", "info"), ("AAA", "1")] }) ++ [[]] := by
  constructor
  · exact env_rendering_deterministic.2.2.1 BuildConfig.default
      [("LOG", "info"), ("AAA", "1")] [("AAA", "1"), ("LOG", "info")]
      (List.Perm.swap _ _ _) (by decide)
  · rcases env_rendering_deterministic.2.1 { BuildConfig.default with
        env := [("LOG", "info"), ("AAA", "1")] } (by decide) with h | h
    · exact h
    · exact absurd h.1 (by decide)

/- ### C3 — install instructions in the rendered recipe -/

/-- The characters of the single `apt-get` install instruction of a
non-empty package list. -/
def installLineData (config : BuildConfig) : List Char :=
  ("RUN apt-get update && apt-get install -y " ++
    String.intercalate " " config.extra_packages ++
    " && rm -rf /var/lib/apt/lists/*").data

/-- The lines the `extra_packages` block contributes. -/
def installBlock (config : BuildConfig) : List (List Char) :=
  if config.extra_packages.isEmpty then [] else [installLineData config]

/-- The lines of the runtime-copy block. -/
def runtimeCopyLinesData (config : BuildConfig) : List (List Char) :=
  match config.«include» with
  | none => ["COPY . .".data]
  | some [] => []
  | some paths =>
    paths.map (fun path =>
      ("COPY " ++ trimEndSlashes path ++ "/ ./" ++ trimEndSlashes path ++
        "/").data)

/-- Template lines before the first `extra_packages` block. -/
def headLines (config : BuildConfig) : List (List Char) :=
  ["# === Base: cargo-chef installed once ===".data,
   ("FROM " ++ config.base_image ++ " AS chef").data,
   ("RUN cargo install cargo-chef --version " ++ config.cargo_chef_version ++
     " --locked").data,
   "WORKDIR /app".data,
   [],
   "# === Stage 1: Planner ===".data,
   "FROM chef AS planner".data,
   "COPY . .".data,
   "RUN cargo chef prepare --recipe-path recipe.json".data,
   [],
   "# === Stage 2: Cacher (dependency build) ===".data,
   "FROM chef AS cacher".data]

/-- Template lines between the two `extra_packages` blocks. -/
def cacherTailLines : List (List Char) :=
  ["COPY --from=planner /app/recipe.json recipe.json".data,
   "RUN cargo chef cook --release --recipe-path recipe.json".data,
   [],
   "# === Stage 3: Builder ===".data,
   "FROM chef AS builder".data]

/-- Template lines from after the second `extra_packages` block to the
runtime-copy block. -/
def builderTailLines (config : BuildConfig) (meta : ProjectMeta) :
    List (List Char) :=
  ["COPY --from=cacher /app/target target".data,
   "COPY --from=cacher /usr/local/cargo /usr/local/cargo".data,
   "COPY . .".data,
   ("RUN cargo build --release --bin " ++ meta.binary_name).data,
   [],
   "# === Stage 4: Runtime ===".data,
   ("FROM " ++ config.runtime_image).data,
   ("COPY --from=builder /app/target/release/" ++ meta.binary_name ++
     " /usr/local/bin/app").data,
   "WORKDIR /app".data]

/-- Final template lines. -/
def tailLines (port : Nat) : List (List Char) :=
  [("EXPOSE " ++ toString port).data,
   "CMD [\"app\"]".data]

/-- All lines of the rendered Dockerfile (the trailing newline contributes a
final empty line beyond this list). -/
def renderLineList (config : BuildConfig) (meta : ProjectMeta) (port : Nat) :
    List (List Char) :=
  headLines config ++ installBlock config ++ cacherTailLines ++
    installBlock config ++ builderTailLines config meta ++
    runtimeCopyLinesData config ++ envLinesDataList config ++ tailLines port

theorem extra_packages_block_data (config : BuildConfig) :
    (extra_packages_block config).data =
      ((installBlock config).map (fun l => l ++ ['\n'])).flatten := by
  rcases h : config.extra_packages.isEmpty with _ | _
  · simp only [extra_packages_block, installBlock, h, Bool.false_eq_true,
      if_neg, not_false_iff, List.map_cons, List.map_nil, List.flatten_cons,
      List.flatten_nil, List.append_nil]
    simp only [String.data_append,
      show (" && rm -rf /var/lib/apt/lists/*\n" : String).data =
        (" && rm -rf /var/lib/apt/lists/*" : String).data ++ ['\n'] from rfl]
    simp [installLineData, String.data_append, List.append_assoc]
  · simp [extra_packages_block, installBlock, h]

theorem runtime_copies_data (config : BuildConfig) :
    (render_runtime_copies config).data =
      ((runtimeCopyLinesData config).map (fun l => l ++ ['\n'])).flatten := by
  rcases h : config.«include» with _ | ⟨_ | ⟨p, ps⟩⟩
  · simp only [render_runtime_copies, runtimeCopyLinesData, h]
    rfl
  · simp [render_runtime_copies, runtimeCopyLinesData, h]
  · simp only [render_runtime_copies, runtimeCopyLinesData, h, join_data,
      List.map_map]
    refine congrArg List.flatten (List.map_congr_left fun path _ => ?_)
    simp only [Function.comp, String.data_append,
      show ("/\n" : String).data = ['/'] ++ ['\n'] from rfl,
      show ("/" : String).data = ['/'] from rfl]
    simp [List.append_assoc]

set_option maxRecDepth 16000 in
theorem render_data (config : BuildConfig) (meta : ProjectMeta) (port : Nat) :
    (render config meta port).data =
      ((renderLineList config meta port).map (fun l => l ++ ['\n'])).flatten := by
  simp only [render, String.data_append, extra_packages_block_data,
    runtime_copies_data, env_directives_data, renderLineList, headLines,
    cacherTailLines, builderTailLines, tailLines, List.map_append,
    List.flatten_append, List.map_cons, List.map_nil, List.flatten_cons,
    List.flatten_nil, List.append_assoc, List.cons_append, List.nil_append,
    List.append_nil]

theorem splitOnChar_join_lines_self (l : List (List Char)) (rest : List Char)
    (hf : ∀ a ∈ l, '\n' ∉ a) :
    splitOnChar '\n' ((l.map (fun a => a ++ ['\n'])).flatten ++ rest) =
      l ++ splitOnChar '\n' rest := by
  simpa using splitOnChar_join_lines (fun a => a) l rest hf

/-- Sanity conditions on the configured strings: none of them smuggles a
newline into the rendered template. -/
def RenderTame (config : BuildConfig) (meta : ProjectMeta) (port : Nat) :
    Prop :=
  '\n' ∉ config.base_image.data ∧
  '\n' ∉ config.cargo_chef_version.data ∧
  '\n' ∉ meta.binary_name.data ∧
  '\n' ∉ config.runtime_image.data ∧
  '\n' ∉ (String.intercalate " " config.extra_packages).data ∧
  (∀ paths, config.«include» = some paths → ∀ p ∈ paths, '\n' ∉ p.data) ∧
  (∀ kv ∈ config.env, '\n' ∉ (kv.1 : String).data ∧ '\n' ∉ kv.2.data) ∧
  '\n' ∉ (toString port).data

theorem renderLineList_nlFree (config : BuildConfig) (meta : ProjectMeta)
    (port : Nat) (ht : RenderTame config meta port) :
    ∀ l ∈ renderLineList config meta port, '\n' ∉ l := by
  obtain ⟨hbase, hchef, hbin, hrun, hpkgs, hinc, henv, hport⟩ := ht
  intro l hl
  simp only [renderLineList, List.mem_append] at hl
  rcases hl with ((((((hl | hl) | hl) | hl) | hl) | hl) | hl) | hl
  · -- headLines
    simp only [headLines, List.mem_cons, List.not_mem_nil, or_false] at hl
    rcases hl with rfl | rfl | rfl | rfl | rfl | rfl | rfl | rfl | rfl | rfl |
      rfl | rfl <;>
      simp_all [String.data_append]
  · -- first install block
    rcases he : config.extra_packages.isEmpty with _ | _ <;>
      rw [installBlock, he] at hl
    · simp only [Bool.false_eq_true, if_neg, not_false_iff,
        List.mem_singleton] at hl
      subst hl
      simp_all [installLineData, String.data_append]
    · simp at hl
  · -- cacher tail
    simp only [cacherTailLines, List.mem_cons, List.not_mem_nil,
      or_false] at hl
    rcases hl with rfl | rfl | rfl | rfl | rfl <;> decide
  · -- second install block
    rcases he : config.extra_packages.isEmpty with _ | _ <;>
      rw [installBlock, he] at hl
    · simp only [Bool.false_eq_true, if_neg, not_false_iff,
        List.mem_singleton] at hl
      subst hl
      simp_all [installLineData, String.data_append]
    · simp at hl
  · -- builder tail
    simp only [builderTailLines, List.mem_cons, List.not_mem_nil,
      or_false] at hl
    rcases hl with rfl | rfl | rfl | rfl | rfl | rfl | rfl | rfl | rfl <;>
      simp_all [String.data_append]
  · -- runtime copies
    rcases hi : config.«include» with _ | ⟨_ | ⟨p, ps⟩⟩ <;>
      rw [runtimeCopyLinesData, hi] at hl
    · simp only [List.mem_singleton] at hl
      subst hl
      decide
    · simp at hl
    · rcases List.mem_map.mp hl with ⟨q, hq, rfl⟩
      have hqnl : '\n' ∉ q.data := hinc (p :: ps) hi q hq
      have := nlFree_trimEndSlashes hqnl
      simp_all [String.data_append]
  · -- env lines
    rcases he : config.env.isEmpty with _ | _ <;>
      rw [envLinesDataList, he] at hl
    · simp only [Bool.false_eq_true, if_neg, not_false_iff] at hl
      rcases List.mem_map.mp hl with ⟨k, hk, rfl⟩
      exact env_line_nlFree config henv k hk
    · simp at hl
  · -- tail lines
    simp only [tailLines, List.mem_cons, List.not_mem_nil, or_false] at hl
    rcases hl with rfl | rfl <;> simp_all [String.data_append]

/-- The rendered Dockerfile, line by line. -/
theorem render_lines (config : BuildConfig) (meta : ProjectMeta) (port : Nat)
    (ht : RenderTame config meta port) :
    linesOf (render config meta port) =
      renderLineList config meta port ++ [[]] := by
  rw [linesOf, render_data,
    ← List.append_nil (((renderLineList config meta port).map
      (fun l => l ++ ['\n'])).flatten),
    splitOnChar_join_lines_self _ _ (renderLineList_nlFree config meta port ht)]
  rfl

theorem isInstallLine_lit_append (lit X : List Char)
    (h : "RUN apt-get".data.take lit.length ≠
      lit.take "RUN apt-get".data.length) :
    isInstallLine (lit ++ X) = false := by
  rw [isInstallLine]
  exact isPrefixOf_append_eq_false _ _ _ h

theorem filter_headLines (config : BuildConfig) :
    (headLines config).filter isInstallLine = [] := by
  apply List.filter_eq_nil_iff.mpr
  intro a ha
  simp only [headLines, List.mem_cons, List.not_mem_nil, or_false] at ha
  rcases ha with rfl | rfl | rfl | rfl | rfl | rfl | rfl | rfl | rfl | rfl |
    rfl | rfl
  · decide
  · rw [show ("FROM " ++ config.base_image ++ " AS chef").data =
      "FROM ".data ++ (config.base_image.data ++ " AS chef".data) from by
        simp [String.data_append],
      isInstallLine_lit_append _ _ (by decide)]
    simp
  · rw [show ("RUN cargo install cargo-chef --version " ++
        config.cargo_chef_version ++ " --locked").data =
      "RUN cargo install cargo-chef --version ".data ++
        (config.cargo_chef_version.data ++ " --locked".data) from by
        simp [String.data_append],
      isInstallLine_lit_append _ _ (by decide)]
    simp
  all_goals decide

theorem filter_cacherTailLines :
    cacherTailLines.filter isInstallLine = [] := by decide

theorem filter_builderTailLines (config : BuildConfig) (meta : ProjectMeta) :
    (builderTailLines config meta).filter isInstallLine = [] := by
  apply List.filter_eq_nil_iff.mpr
  intro a ha
  simp only [builderTailLines, List.mem_cons, List.not_mem_nil,
    or_false] at ha
  rcases ha with rfl | rfl | rfl | rfl | rfl | rfl | rfl | rfl | rfl
  · decide
  · decide
  · decide
  · rw [show ("RUN cargo build --release --bin " ++ meta.binary_name).data =
      "RUN cargo build --release --bin ".data ++ meta.binary_name.data from by
        simp [String.data_append],
      isInstallLine_lit_append _ _ (by decide)]
    simp
  · decide
  · decide
  · rw [show ("FROM " ++ config.runtime_image).data =
      "FROM ".data ++ config.runtime_image.data from by
        simp [String.data_append],
      isInstallLine_lit_append _ _ (by decide)]
    simp
  · rw [show ("COPY --from=builder /app/target/release/" ++
        meta.binary_name ++ " /usr/local/bin/app").data =
      "COPY --from=builder /app/target/release/".data ++
        (meta.binary_name.data ++ " /usr/local/bin/app".data) from by
        simp [String.data_append],
      isInstallLine_lit_append _ _ (by decide)]
    simp
  · decide

theorem filter_runtimeCopyLines (config : BuildConfig) :
    (runtimeCopyLinesData config).filter isInstallLine = [] := by
  apply List.filter_eq_nil_iff.mpr
  intro a ha
  rcases hi : config.«include» with _ | ⟨_ | ⟨p, ps⟩⟩ <;>
    rw [runtimeCopyLinesData, hi] at ha
  · simp only [List.mem_singleton] at ha
    subst ha
    decide
  · simp at ha
  · rcases List.mem_map.mp ha with ⟨q, _, rfl⟩
    rw [show ("COPY " ++ trimEndSlashes q ++ "/ ./" ++ trimEndSlashes q ++
        "/").data =
      "COPY ".data ++ ((trimEndSlashes q).data ++ ("/ ./".data ++
        ((trimEndSlashes q).data ++ "/".data))) from by
        simp [String.data_append],
      isInstallLine_lit_append _ _ (by decide)]
    simp

theorem filter_envLines (config : BuildConfig) :
    (envLinesDataList config).filter isInstallLine = [] := by
  apply List.filter_eq_nil_iff.mpr
  intro a ha
  rcases he : config.env.isEmpty with _ | _ <;>
    rw [envLinesDataList, he] at ha
  · simp only [Bool.false_eq_true, if_neg, not_false_iff] at ha
    rcases List.mem_map.mp ha with ⟨k, _, rfl⟩
    rw [show envLineData config k =
      "ENV ".data ++ (k.data ++ ("=".data ++
        ((config.env.lookup k).getD "").data)) from by
        simp [envLineData, String.data_append],
      isInstallLine_lit_append _ _ (by decide)]
    simp
  · simp at ha

theorem filter_tailLines (port : Nat) :
    (tailLines port).filter isInstallLine = [] := by
  apply List.filter_eq_nil_iff.mpr
  intro a ha
  simp only [tailLines, List.mem_cons, List.not_mem_nil, or_false] at ha
  rcases ha with rfl | rfl
  · rw [show ("EXPOSE " ++ toString port).data =
      "EXPOSE ".data ++ (toString port).data from by
        simp [String.data_append],
      isInstallLine_lit_append _ _ (by decide)]
    simp
  · decide

theorem filter_installBlock (config : BuildConfig) :
    (installBlock config).filter isInstallLine = installBlock config := by
  rcases he : config.extra_packages.isEmpty with _ | _ <;>
    rw [installBlock, he]
  · simp only [Bool.false_eq_true, if_neg, not_false_iff]
    have : isInstallLine (installLineData config) = true := by
      rw [show installLineData config =
        "RUN apt-get update && apt-get install -y ".data ++
          ((String.intercalate " " config.extra_packages).data ++
            " && rm -rf /var/lib/apt/lists/*".data) from by
          simp [installLineData, String.data_append],
        isInstallLine, isPrefixOf_append_eq_true _ _ _ (by decide)]
    simp [List.filter, this]
  · rfl

/-- C3 (amended): the rendered recipe contains no `apt-get` install
instruction when the extra-package list is empty, and exactly two —
one in the dependency-build (cacher) stage and one in the builder stage,
each the same single instruction naming every listed package — when it is
non-empty. -/
theorem dockerfile_install_instructions (config : BuildConfig)
    (meta : ProjectMeta) (port : Nat) (ht : RenderTame config meta port) :
    (config.extra_packages = [] →
      installInstructionLines (render config meta port) = []) ∧
    (config.extra_packages ≠ [] →
      installInstructionLines (render config meta port) =
        [installLineData config, installLineData config]) := by
  have hlines : installInstructionLines (render config meta port) =
      (installBlock config) ++ (installBlock config) := by
    rw [installInstructionLines, render_lines config meta port ht]
    simp only [renderLineList, List.filter_append, filter_headLines,
      filter_cacherTailLines, filter_builderTailLines,
      filter_runtimeCopyLines, filter_envLines, filter_tailLines,
      filter_installBlock, List.append_nil, List.nil_append]
    simp [List.filter, isInstallLine, List.isPrefixOf]
  constructor
  · intro he
    rw [hlines, installBlock, he]
    rfl
  · intro he
    rw [hlines, installBlock,
      show config.extra_packages.isEmpty = false from by
        rcases h : config.extra_packages with _ | _
        · exact absurd h he
        · rfl]
    rfl

/-- C3 counterexample: at the spec's own end-to-end example
(`extra_packages = ["libssl-dev"]`), the rendered recipe contains two
install instructions (one per build stage), not exactly one. -/
theorem dockerfile_install_instructions_counterexample :
    (installInstructionLines (render
        { BuildConfig.default with extra_packages := ["libssl-dev"] }
        ⟨"demo", "0.1.0", "demo"⟩ 8080)).length = 2 ∧
    ¬ (installInstructionLines (render
        { BuildConfig.default with extra_packages := ["libssl-dev"] }
        ⟨"demo", "0.1.0", "demo"⟩ 8080)).length = 1 := by
  have h := dockerfile_install_instructions
    { BuildConfig.default with extra_packages := ["libssl-dev"] }
    ⟨"demo", "0.1.0", "demo"⟩ 8080
    (by
      refine ⟨by decide, by decide, by decide, by decide, by decide,
        ?_, ?_, by decide⟩
      · intro paths hp
        cases hp
      · intro kv hkv
        cases hkv)
  rw [h.2 (by decide)]
  exact ⟨rfl, by decide⟩

/-- Witness for C3: the same configuration, but through the general theorem
with an empty package list as well. -/
theorem dockerfile_install_instructions_witness :
    installInstructionLines (render BuildConfig.default
        ⟨"demo", "0.1.0", "demo"⟩ 8080) = [] ∧
    installInstructionLines (render
        { BuildConfig.default with
            extra_packages := ["libssl-dev", "pkg-config"] }
        ⟨"demo", "0.1.0", "demo"⟩ 8080) =
      [installLineData { BuildConfig.default with
          extra_packages := ["libssl-dev", "pkg-config"] },
       installLineData { BuildConfig.default with
          extra_packages := ["libssl-dev", "pkg-config"] }] :=
  ⟨(dockerfile_install_instructions BuildConfig.default
      ⟨"demo", "0.1.0", "demo"⟩ 8080
      ⟨by decide, by decide, by decide, by decide, by decide,
       (fun paths hp => by cases hp), (fun kv hkv => by cases hkv),
       by decide⟩).1 rfl,
   (dockerfile_install_instructions
      { BuildConfig.default with
          extra_packages := ["libssl-dev", "pkg-config"] }
      ⟨"demo", "0.1.0", "demo"⟩ 8080
      ⟨by decide, by decide, by decide, by decide, by decide,
       (fun paths hp => by cases hp), (fun kv hkv => by cases hkv),
       by decide⟩).2 (by decide)⟩

end Propel
